import Mathlib

/-!
Shallow embedding of the dksh-refactor step-output storage core:
`utils/bucket_helper.py`, `utils/read_n_write_s3.py`,
`utils/file_extraction.py`, and the workflow processors
`write_json_to_s3.py` / `write_raw_to_s3.py`.

Strings are modelled as `List Char`; Python `None`-able values as `Option`;
functions that can raise as `Except String _`.  External collaborators
(the boto3 client, `json.loads`, the backend config) are parameters.
-/

namespace Dksh

/-- Model strings: Python `str` as a list of characters. -/
abbrev Str := List Char

/-- Coerce a Lean string literal into the model string type. -/
def toL (s : String) : Str := s.toList

/-- The apostrophe character (U+0027), used inside Python error messages. -/
def apos : Char := Char.ofNat 39

/-- The double-quote character (U+0022); `str(KeyError(m))` shows `repr(m)`,
which for messages containing apostrophes is the double-quoted form. -/
def dquote : Char := Char.ofNat 34

/-- Python `repr` of a `KeyError`'s message string (for messages that contain
apostrophes and no double quote): the message wrapped in double quotes.
This is what `f"{e}"` renders for a caught `KeyError`. -/
def pyKeyErrorStr (m : Str) : Str := dquote :: (m ++ [dquote])

/-- Python `pat in hay` substring test. -/
def strContains (hay pat : Str) : Bool :=
  if pat.isPrefixOf hay then true
  else
    match hay with
    | [] => false
    | _ :: t => strContains t pat

/-- Split off the first occurrence of `sep` in `hay`:
`some (before, after)`, or `none` when `sep` does not occur. -/
def splitFirst (sep hay : Str) : Option (Str × Str) :=
  if sep.isPrefixOf hay then some ([], hay.drop sep.length)
  else
    match hay with
    | [] => none
    | c :: t => (splitFirst sep t).map (fun p => (c :: p.1, p.2))

/-- Fuelled worker for Python `str.split` (left-to-right, non-overlapping). -/
def splitPyFuel : Nat → Str → Str → List Str
  | 0, _, hay => [hay]
  | n + 1, sep, hay =>
    match splitFirst sep hay with
    | none => [hay]
    | some (b, a) => b :: splitPyFuel n sep a

/-- Python `hay.split(sep)` for a non-empty separator. -/
def splitPy (sep hay : Str) : List Str := splitPyFuel (hay.length + 1) sep hay

/-- Python `lst[-1]` on the (always non-empty) result of `str.split`. -/
def pyLast (l : List Str) : Str := l.getLastD []

/-- Python `s.split(sep)[0]`: the part before the first occurrence of `sep`
(`s` itself when `sep` does not occur). -/
def beforeFirst (sep s : Str) : Str :=
  match splitFirst sep s with
  | none => s
  | some p => p.1

/-- Python `str.lower` (ASCII behaviour suffices for the paths involved). -/
def pyLower (s : Str) : Str := s.map Char.toLower

/-- Python `str.upper` (ASCII behaviour suffices for project names). -/
def pyUpper (s : Str) : Str := s.map Char.toUpper

/-- Decimal digit value of a digit character. -/
def digitVal (c : Char) : Nat := c.toNat - 48

/-- Parse the remaining characters of a Python integer literal after the
first digit: further digits, with single underscores allowed between digits. -/
def pyIntDigitsRest (acc : Nat) : Str → Option Nat
  | [] => some acc
  | '_' :: c :: t =>
    if c.isDigit then pyIntDigitsRest (acc * 10 + digitVal c) t else none
  | '_' :: [] => none
  | c :: t =>
    if c.isDigit then pyIntDigitsRest (acc * 10 + digitVal c) t else none

/-- Parse a non-empty Python digit sequence (underscore grouping allowed). -/
def pyIntDigits : Str → Option Nat
  | [] => none
  | c :: t => if c.isDigit then pyIntDigitsRest (digitVal c) t else none

/-- Python `int(s)` on a string: optional surrounding whitespace, optional
sign, then digits; `none` models the `ValueError` raised otherwise. -/
def pyInt (s : Str) : Option Int :=
  let s1 := s.dropWhile Char.isWhitespace
  let s2 := (s1.reverse.dropWhile Char.isWhitespace).reverse
  match s2 with
  | '+' :: t => (pyIntDigits t).map Int.ofNat
  | '-' :: t => (pyIntDigits t).map (fun n => -(n : Int))
  | t => (pyIntDigits t).map Int.ofNat

/-- Decimal digits of a natural number, as characters. -/
def natToStr (n : Nat) : Str := Nat.toDigits 10 n

/-- Python `f"{n}"` for an `int`. -/
def intToStr : Int → Str
  | Int.ofNat m => natToStr m
  | Int.negSucc m => '-' :: natToStr (m + 1)

/-- Python `f"{n:02}"`: zero-pad to width 2. -/
def fmt2 (n : Nat) : Str :=
  let d := natToStr n
  List.replicate (2 - d.length) '0' ++ d

/-- Python `f"{n:03d}"`: zero-pad to width 3. -/
def fmt3 (n : Nat) : Str :=
  let d := natToStr n
  List.replicate (3 - d.length) '0' ++ d

/-- Rendering of an `Option`al string in a Python f-string:
`None` renders as the text `None`. -/
def pyStrOpt (o : Option Str) : Str :=
  match o with
  | some s => s
  | none => toL "None"

/-- Python truthiness of an `Optional[bool]`. -/
def truthyB (o : Option Bool) : Bool :=
  match o with
  | some b => b
  | none => false

/-- Python truthiness of an `Optional[int]`: `None` and `0` are falsy. -/
def truthyI (o : Option Int) : Bool :=
  match o with
  | some n => n != 0
  | none => false

/-- Python truthiness of an `Optional[str]`: `None` and `""` are falsy. -/
def truthyS (o : Option Str) : Bool :=
  match o with
  | some s => !s.isEmpty
  | none => false

/-! ## Data model (`models/class_models.py` equivalents)

`class_models.py` itself is not under `src/`; the shapes below are the ones
its users in `src/` rely on, and the enum string values are the ones the
repository's tests compare against (`"order"` / `"master_data"`). -/

/-- Modelled from the spec: the document category enum (`DocumentType` in
`class_models.py`, which is not under `src/`).  Its `.value` strings are
pinned by `test_template_helper.py` / `test_csv_processor.py`
(`"order"`, `"master_data"`); `"master_data"` is the spec's
master-data marker. -/
inductive DocumentType
  | ORDER
  | MASTER_DATA
deriving DecidableEq, Repr

/-- The `.value` string of a `DocumentType` member. -/
def DocumentType.value : DocumentType → Str
  | .ORDER => toL "order"
  | .MASTER_DATA => toL "master_data"

/-- Modelled from the spec: the step status enum (`StatusEnum` in
`class_models.py`, not under `src/`); members used by the processors. -/
inductive StatusEnum
  | SUCCESS
  | FAILED
  | PROCESSING
  | NOT_DEFINED
deriving DecidableEq, Repr

/-- Workflow step ordering entity: the fields `get_s3_key_prefix` reads
(`stepName`, `stepOrder`; `int(step.stepOrder)` modelled as `Nat`). -/
structure WorkflowStep where
  stepName : Str
  stepOrder : Nat
deriving DecidableEq, Repr

/-- Step configuration: the field `get_s3_key_prefix` reads. -/
structure StepDefinition where
  target_store_data : Str
deriving DecidableEq, Repr

/-- The per-request file record.  `bucket_helper.get_s3_key_prefix` reads it
with `dict.get` (absent keys yield `None`, hence `Option` fields), while the
workflow processors read the same names as attributes. -/
structure FileRecord where
  file_name : Option Str
  file_name_wo_ext : Option Str
  folder_name : Option Str
  customer_foldername : Option Str
  proceed_at : Option Str
  document_type : DocumentType
  target_bucket_name : Str
deriving DecidableEq, Repr

/-- The tracking-model fields read by the storage processors. -/
structure TrackingModel where
  request_id : Str
  project_name : Str
  rerun_attempt : Option Int
  sap_masterdata : Option Bool
deriving DecidableEq, Repr

/-- The dict returned by `utils/read_n_write_s3.write_json_to_s3`. -/
structure WriteResult where
  status : Str
  error : Option Str
  s3_key_pfx : Str
deriving DecidableEq, Repr

/-- The uniform step-result envelope (`StepOutput` in `class_models.py`).
For the `write_json_to_s3` processor the payload is the util's result dict
and the failure message is the `traceback.format_exc()` string. -/
structure StepOutput where
  output : Option WriteResult
  step_status : StatusEnum
  step_failure_message : Option Str
deriving DecidableEq, Repr

/-- A decoded JSON step artifact, as far as `get_step_result_from_s3`
inspects it: its declared `step_status` field, the `json_output` entry the
function adds, and the rest of the payload left abstract. -/
structure Payload where
  step_status : Option Str
  json_output : Option Str
  body : Str
deriving DecidableEq, Repr

/-! ## Object store gateway (`utils/read_n_write_s3.py`)

The boto3 client is an oracle: each operation's underlying outcome is a
field of `S3Oracle`.  `clientErr` stands for the `ClientError`/
`BotoCoreError` cases that `get_object` catches itself; `otherErr` for any
other exception, which propagates out of `get_object` to the caller. -/

/-- Underlying outcome of one `client.get_object` call. -/
inductive GetOutcome
  | ok (content : Str)
  | clientErr (e : Str)
  | otherErr (e : Str)
deriving DecidableEq, Repr

/-- Oracle for the boto3 client's behaviour, per key / prefix. -/
structure S3Oracle where
  getRaw : Str → GetOutcome
  listPages : Str → Except Str (List Str)

/-- `read_n_write_s3.get_object`: downloads into a buffer; returns `None`
(`.ok none`) on `ClientError`/`BotoCoreError`; any other exception
propagates (`.error`). -/
def get_object (o : S3Oracle) (object_name : Str) : Except Str (Option Str) :=
  match o.getRaw object_name with
  | .ok c => .ok (some c)
  | .clientErr _ => .ok none
  | .otherErr e => .error e

/-- `read_n_write_s3.read_json_from_s3`: reads the object and JSON-decodes
it; every failure path (connector/client error, missing object, undecodable
content) returns `none` — the whole body is wrapped in `except Exception`.
`parse` stands for UTF-8 decoding plus `json.loads` (`none` = parse error). -/
def read_json_from_s3 (parse : Str → Option Payload) (o : S3Oracle)
    (object_name : Str) : Option Payload :=
  match get_object o object_name with
  | .error _ => none
  | .ok none => none
  | .ok (some content) => parse content

/-- `read_n_write_s3.list_objects_with_prefix`: collects the keys of all
pages; any exception (connector construction or pagination) yields `[]`. -/
def list_objects_with_pfx (o : S3Oracle) (pfx : Str) : List Str :=
  match o.listPages pfx with
  | .ok keys => keys
  | .error _ => []

/-- `read_n_write_s3.write_json_to_s3` (the util).  Connector construction
happens before the `try` block, so its failure propagates as an exception
(`conn = .error`); everything inside the `try` — serialization and
`put_object` — is converted into a `Failed` result dict (`put = some e`
carries that error text).  A clean upload yields a `Success` dict. -/
def write_json_to_s3_util (conn : Except Str Unit) (put : Option Str)
    (s3_key_pfx : Str) : Except Str WriteResult :=
  match conn with
  | .error e => .error e
  | .ok _ =>
    match put with
    | some e => .ok { status := toL "Failed", error := some e, s3_key_pfx := s3_key_pfx }
    | none => .ok { status := toL "Success", error := none, s3_key_pfx := s3_key_pfx }

/-- Text of Python `traceback.format_exc()` for an exception message `e`:
some traceback header followed by the message. -/
def pyTraceback (e : Str) : Str :=
  toL "Traceback (most recent call last): " ++ e

/-- The `write_json_to_s3` workflow processor
(`processors/workflow_processors/write_json_to_s3.py`): calls the util and
wraps whatever dict it returns in a `SUCCESS` envelope; only a raised
exception produces the `FAILED` envelope with the traceback text. -/
def write_json_to_s3_step (conn : Except Str Unit) (put : Option Str)
    (s3_key_pfx : Str) : StepOutput :=
  match write_json_to_s3_util conn put s3_key_pfx with
  | .ok result =>
    { output := some result
      step_status := StatusEnum.SUCCESS
      step_failure_message := none }
  | .error e =>
    { output := none
      step_status := StatusEnum.FAILED
      step_failure_message := some (pyTraceback e) }

/-- Python `max(l, key=lambda x: x[0])` over `(int, key)` pairs: the
earliest pair with the maximal first component (`none` on the empty list,
where Python would raise — the caller guards with `if reruns:`). -/
def pyMaxBy : List (Int × Str) → Option (Int × Str)
  | [] => none
  | x :: t =>
    match pyMaxBy t with
    | none => some x
    | some m => if m.1 > x.1 then some m else some x

/-- The rerun number `select_latest_rerun` parses out of a key:
`int(k.split("_rerun_")[-1].split(".json")[0])`; `none` models the
`ValueError` when that segment is not an integer literal. -/
def rerunKeyNum (k : Str) : Option Int :=
  pyInt (beforeFirst (toL ".json") (pyLast (splitPy (toL "_rerun_") k)))

/-- The list comprehension
`[(int(k.split("_rerun_")[-1].split(".json")[0]), k) for k in cands]`:
pairs each candidate with its parsed rerun number, `none` when any parse
raises `ValueError`. -/
def parseRerunPairs : List Str → Option (List (Int × Str))
  | [] => some []
  | k :: t =>
    match rerunKeyNum k with
    | none => none
    | some n =>
      match parseRerunPairs t with
      | none => none
      | some r => some ((n, k) :: r)

/-- `read_n_write_s3.select_latest_rerun`: among keys containing
`{base}_rerun_`, the one with the maximal parsed number (`.error` when a
parse raises `ValueError`); otherwise the first key containing
`{base}.json` and not containing `_rerun_`; otherwise `none`. -/
def select_latest_rerun (keys : List Str) (base_filename : Str) :
    Except Str (Option Str) :=
  match parseRerunPairs
      (keys.filter (fun k => strContains k (base_filename ++ toL "_rerun_"))) with
  | none => .error (toL "ValueError: invalid literal for int() with base 10")
  | some reruns =>
    match pyMaxBy reruns with
    | some m => .ok (some m.2)
    | none =>
      .ok (keys.find? (fun k =>
        strContains k (base_filename ++ toL ".json") &&
        !strContains k (toL "_rerun_")))

/-! ## Bucket/key resolver (`utils/bucket_helper.py`) -/

/-- A Python string-to-string dict, as an association list. -/
abbrev Dict := List (Str × Str)

/-- Python `d.get(k)` on a string dict. -/
def dictGet (d : Dict) (k : Str) : Option Str :=
  (d.find? (fun p => p.1 == k)).map (fun p => p.2)

/-- Python `d.get(k)` on a dict whose values are dicts. -/
def dictGetNested (d : List (Str × Dict)) (k : Str) : Option Dict :=
  (d.find? (fun p => p.1 == k)).map (fun p => p.2)

/-- Modelled from the spec: the `BUCKET_MAP` constant and the
`config_loader.get_config_value("s3_buckets", ·)` lookup, both defined in
modules not under `src/` (`processors/processor_nodes.py`,
`config_loader.py`).  Usage in `bucket_helper.py` fixes the shape: a
`raw_bucket` table keyed by project name, and a `target_bucket` table keyed
by document-type value and then by project name / `"sap_masterdata"`;
`cfgGet` may itself raise (error text = Python `str(e)`). -/
structure BucketEnv where
  rawMap : Dict
  targetMap : List (Str × Dict)
  cfgGet : Str → Except Str Str

/-- Message of the `KeyError` for an unknown bucket type. -/
def msgUnknownBucketType (bt : Str) : Str :=
  toL "Unknown bucket_type " ++ [apos] ++ bt ++ [apos]

/-- Message of the `KeyError` for a project missing from the raw table. -/
def msgProjNotFound (pn bt : Str) : Str :=
  toL "Project " ++ [apos] ++ pn ++ [apos] ++ toL " not found in " ++
    [apos] ++ bt ++ [apos]

/-- Message of the `KeyError` for an unsupported document type. -/
def msgUnsupportedDoc (dv bt : Str) : Str :=
  toL "Unsupported document_type " ++ [apos] ++ dv ++ [apos] ++ toL " for " ++
    [apos] ++ bt ++ [apos]

/-- Message of the `KeyError` for a key missing from the per-type table. -/
def msgNoBucket (key dv : Str) : Str :=
  toL "No bucket found for key " ++ [apos] ++ key ++ [apos] ++ toL " in " ++
    [apos] ++ dv ++ [apos]

/-- The `try` body of `bucket_helper.get_bucket_name`.  `BUCKET_MAP.get`
followed by the `if not buckets` falsy check is modelled per bucket type
(a missing key and an empty table both fail); raised `KeyError`s carry
their `str(e)` (= `repr` of the message). -/
def get_bucket_name_inner (env : BucketEnv) (document_type : DocumentType)
    (bucket_type : Str) (project_name : Str) (sap_masterdata : Option Bool) :
    Except Str Str :=
  let pn := pyUpper project_name
  if bucket_type = toL "raw_bucket" then
    if env.rawMap.isEmpty then
      .error (pyKeyErrorStr (msgUnknownBucketType bucket_type))
    else
      match dictGet env.rawMap pn with
      | none => .error (pyKeyErrorStr (msgProjNotFound pn bucket_type))
      | some b =>
        if b.isEmpty then .error (pyKeyErrorStr (msgProjNotFound pn bucket_type))
        else env.cfgGet b
  else if bucket_type = toL "target_bucket" then
    if env.targetMap.isEmpty then
      .error (pyKeyErrorStr (msgUnknownBucketType bucket_type))
    else
      match dictGetNested env.targetMap document_type.value with
      | none =>
        .error (pyKeyErrorStr (msgUnsupportedDoc document_type.value bucket_type))
      | some doc_data =>
        if doc_data.isEmpty then
          .error (pyKeyErrorStr (msgUnsupportedDoc document_type.value bucket_type))
        else
          let key :=
            if document_type = DocumentType.MASTER_DATA ∧ truthyB sap_masterdata = true
            then toL "sap_masterdata" else pn
          match dictGet doc_data key with
          | none => .error (pyKeyErrorStr (msgNoBucket key document_type.value))
          | some b =>
            if b.isEmpty then
              .error (pyKeyErrorStr (msgNoBucket key document_type.value))
            else env.cfgGet b
  else .error (pyKeyErrorStr (msgUnknownBucketType bucket_type))

/-- `bucket_helper.get_bucket_name`: the inner lookup with every exception
rewrapped as `ValueError(f"Failed to resolve bucket name: {e}")`. -/
def get_bucket_name (env : BucketEnv) (document_type : DocumentType)
    (bucket_type : Str) (project_name : Str) (sap_masterdata : Option Bool) :
    Except Str Str :=
  match get_bucket_name_inner env document_type bucket_type project_name sap_masterdata with
  | .ok b => .ok b
  | .error e => .error (toL "Failed to resolve bucket name: " ++ e)

/-- `bucket_helper.get_s3_key_prefix`.  `date_str` is the ambient UTC date
(fixed-clock parameter).  The declared return type is `str`, but the
`if`/`elif` chain has no `else`: falling through returns Python `None`,
modelled as `.ok none`; attribute access on a `None` step or config raises
(`.error`). -/
def get_s3_key_pfx (date_str : Str) (request_id : Str)
    (file_record : FileRecord) (step : Option WorkflowStep)
    (step_config : Option StepDefinition) (rerun_attempt : Option Int)
    (is_master_data : Option Bool) (target_folder : Option Str)
    ( is_full_prefix : Option Bool) (version_folder : Option Str) :
    Except Str (Option Str) :=
  let step_order : Str :=
    match step with
    | some s => fmt2 s.stepOrder
    | none => []
  let file_name := file_record.file_name
  let file_name_wo_ext := file_record.file_name_wo_ext
  let prefix_part : Str :=
    if truthyB is_master_data then pyStrOpt file_name_wo_ext
    else pyStrOpt file_record.folder_name ++ toL "/" ++
      pyStrOpt file_record.customer_foldername
  let object_name : Str :=
    if truthyI rerun_attempt then
      pyStrOpt file_name_wo_ext ++ toL "_rerun_" ++
        intToStr (rerun_attempt.getD 0) ++ toL ".json"
    else pyStrOpt file_name_wo_ext ++ toL ".json"
  if !truthyS target_folder && truthyB is_full_prefix then
    match step_config, step with
    | some cfg, some s =>
      .ok (some (cfg.target_store_data ++ toL "/" ++ prefix_part ++ toL "/" ++
        date_str ++ toL "/" ++ request_id ++ toL "/" ++ step_order ++ toL "_" ++
        s.stepName ++ toL "/" ++ object_name))
    | none, _ => .error (toL "AttributeError: step_config is None")
    | _, none => .error (toL "AttributeError: step is None")
  else if !truthyS target_folder && !truthyB is_full_prefix then
    match step_config, step with
    | some cfg, some s =>
      .ok (some (cfg.target_store_data ++ toL "/" ++ prefix_part ++ toL "/" ++
        date_str ++ toL "/" ++ request_id ++ toL "/" ++ step_order ++ toL "_" ++
        s.stepName ++ toL "/"))
    | none, _ => .error (toL "AttributeError: step_config is None")
    | _, none => .error (toL "AttributeError: step is None")
  else if truthyB is_master_data && target_folder == some (toL "master_data") then
    .ok (some (toL "master_data/" ++ pyStrOpt file_name_wo_ext ++ toL "/" ++
      pyStrOpt file_name))
  else if truthyB is_master_data && target_folder == some (toL "process_data") then
    match file_record.proceed_at with
    | none => .error (toL "KeyError: proceed_at")
    | some ts =>
      .ok (some (toL "process_data/" ++ pyStrOpt file_name_wo_ext ++ toL "/" ++
        pyStrOpt file_name_wo_ext ++ toL "_" ++ ts ++ toL ".json"))
  else if truthyB is_master_data && target_folder == some (toL "versioning") then
    .ok (some (toL "versioning/" ++ pyStrOpt file_name_wo_ext ++ toL "/" ++
      pyStrOpt version_folder ++ toL "/" ++ pyStrOpt file_name))
  else .ok none

/-! ## Master-data version resolution
(`processors/workflow_processors/write_raw_to_s3.py`, lines 53–68) -/

/-- Try to match the regex `versioning/{stem}/(\d{3})/` at the head of `s`
(`pref` is the literal `versioning/{stem}/`): exactly three digits followed
by a slash. -/
def matchVersionHere (pref s : Str) : Option Nat :=
  if pref.isPrefixOf s then
    match s.drop pref.length with
    | d1 :: d2 :: d3 :: '/' :: _ =>
      if d1.isDigit && d2.isDigit && d3.isDigit then
        some (digitVal d1 * 100 + digitVal d2 * 10 + digitVal d3)
      else none
    | _ => none
  else none

/-- `re.search` scan: first position of `s` where the version pattern
matches. -/
def extractVersionScan (pref : Str) : Str → Option Nat
  | [] => matchVersionHere pref []
  | c :: t =>
    match matchVersionHere pref (c :: t) with
    | some n => some n
    | none => extractVersionScan pref t

/-- The version number the code extracts from one key:
`re.search(rf"versioning/{re.escape(stem)}/(\d{{3}})/", key)`. -/
def extractVersion (stem k : Str) : Option Nat :=
  extractVersionScan (toL "versioning/" ++ stem ++ toL "/") k

/-- Python `max` on a list of naturals (`0` on the empty list, which the
caller guards against). -/
def listMaxNat (l : List Nat) : Nat := l.foldl Nat.max 0

/-- `write_raw_to_s3` version resolution: `version_number = 1`; when the
listing is non-empty, collect every key's extracted version; when any were
found, `max(numbers) + 1`. -/
def resolve_version_number (existing_keys : List Str) (stem : Str) : Nat :=
  if existing_keys.isEmpty then 1
  else
    let numbers := existing_keys.filterMap (extractVersion stem)
    if numbers.isEmpty then 1 else listMaxNat numbers + 1

/-- The three-digit version folder `write_raw_to_s3` resolves for the next
write, given the store's listing of the file stem's versioning area. -/
def write_raw_version_folder (fr : FileRecord) (o : S3Oracle) : Str :=
  let stem := pyStrOpt fr.file_name_wo_ext
  let version_pfx := toL "versioning/" ++ stem ++ toL "/"
  let existing_keys := list_objects_with_pfx o version_pfx
  fmt3 (resolve_version_number existing_keys stem)

/-! ## File metadata extraction (`utils/file_extraction.py`) -/

/-- `PurePosixPath(p).parts`: the path split on slashes, with empty and `.`
components dropped and a leading `/` kept as the root part (the repository's
non-local sources use POSIX paths). -/
def pathPartsPosix (p : Str) : List Str :=
  let segs := (splitPy (toL "/") p).filter (fun s => !s.isEmpty && s != toL ".")
  match p with
  | '/' :: _ => toL "/" :: segs
  | _ => segs

/-- `FileExtensionProcessor._get_document_type` (non-local source branch):
`MASTER_DATA` iff some path part, lowercased, equals
`DocumentType.MASTER_DATA.value`; empty parts raise. -/
def documentTypeOfPath (file_path : Str) : Except Str DocumentType :=
  let parts := pathPartsPosix file_path
  if parts.isEmpty then
    .error (toL "ValueError: Invalid file path. No path components found.")
  else
    .ok (if parts.any (fun part => pyLower part == DocumentType.MASTER_DATA.value)
      then DocumentType.MASTER_DATA else DocumentType.ORDER)

/-- The metadata `_prepare_object` resolves before loading the file. -/
structure ProcMeta where
  document_type : DocumentType
  raw_bucket_name : Str
  target_bucket_name : Str
deriving DecidableEq, Repr

/-- The head of `FileExtensionProcessor._prepare_object`: document type is
determined first (`_get_document_type`), then both buckets are resolved
from it (`_get_bucket_name`); bucket failures are rewrapped. -/
def prepareMeta (env : BucketEnv) (tm : TrackingModel) (file_path : Str) :
    Except Str ProcMeta :=
  match documentTypeOfPath file_path with
  | .error e => .error e
  | .ok dt =>
    match get_bucket_name env dt (toL "raw_bucket") tm.project_name
        tm.sap_masterdata with
    | .error e => .error (toL "Failed to retrieve bucket names. Original error: " ++ e)
    | .ok raw =>
      match get_bucket_name env dt (toL "target_bucket") tm.project_name
          tm.sap_masterdata with
      | .error e => .error (toL "Failed to retrieve bucket names. Original error: " ++ e)
      | .ok tgt =>
        .ok { document_type := dt, raw_bucket_name := raw, target_bucket_name := tgt }

/-! ## Prior step result lookup
(`processors/workflow_processors/write_json_to_s3.get_step_result_from_s3`) -/

/-- The attempt used for the lookup:
`rerun_attempt - 1 if rerun_attempt is not None and rerun_attempt > 1 else None`. -/
def priorRerunAttempt (ra : Option Int) : Option Int :=
  match ra with
  | some n => if n > 1 then some (n - 1) else none
  | none => none

/-- The mode-2 listing key `get_step_result_from_s3` builds:
`get_s3_key_prefix(..., rerun_attempt=prior, target_folder=None,
is_full_prefix=False, version_folder=None)`. -/
def stepResultListingPfx (date_str : Str) (tm : TrackingModel)
    (fr : FileRecord) (step : WorkflowStep) (step_config : StepDefinition) :
    Except Str (Option Str) :=
  get_s3_key_pfx date_str tm.request_id fr (some step) (some step_config)
    (priorRerunAttempt tm.rerun_attempt) tm.sap_masterdata none (some false) none

/-- The `data.update(json_output=key)` mutation before parsing. -/
def setJsonOutput (d : Payload) (k : Str) : Payload :=
  { d with json_output := some k }

/-- `get_step_result_from_s3`: build the mode-2 prefix with the decremented
attempt, list keys under it, pick one with `select_latest_rerun`, read and
JSON-decode it; `None` when nothing is found.  The decoded payload's
`step_status` is only logged ("skip vs rerun") — the decoded result is
parsed (`template_helper.parse_data`, an external collaborator, passed as
`parse_data`) and returned regardless of that status.  When no key was
selected the `read_json_from_s3(key=None)` call fails inside boto and
yields `None`, hence the same "not found" outcome. -/
def get_step_result_from_s3 {α : Type} (parse : Str → Option Payload)
    (parse_data : DocumentType → Payload → α) (o : S3Oracle) (date_str : Str)
    (tm : TrackingModel) (fr : FileRecord) (step : WorkflowStep)
    (step_config : StepDefinition) : Except Str (Option α) :=
  match stepResultListingPfx date_str tm fr step step_config with
  | .error e => .error e
  | .ok pfxOpt =>
    let keys :=
      match pfxOpt with
      | some pfx => list_objects_with_pfx o pfx
      | none => []
    match select_latest_rerun keys (pyStrOpt fr.file_name_wo_ext) with
    | .error e => .error e
    | .ok none => .ok none
    | .ok (some k) =>
      match read_json_from_s3 parse o k with
      | none => .ok none
      | some d => .ok (some (parse_data fr.document_type (setJsonOutput d k)))

/-! ## Concrete fixtures used by witnesses and counterexamples -/

/-- A fixture file record for an order-document request. -/
def frOrder : FileRecord :=
  { file_name := some (toL "doc.txt")
    file_name_wo_ext := some (toL "doc")
    folder_name := some (toL "f1")
    customer_foldername := some (toL "c1")
    proceed_at := none
    document_type := DocumentType.ORDER
    target_bucket_name := toL "tb" }

/-! ## Theorems -/

/-- Claim C1. The claim requires a step whose compute succeeds but whose JSON
persistence fails to return `status=FAILED` with the storage error text in
its failure messages and a nil output.  The code does not: the util converts
an upload failure into a `Failed` result dict (it does not raise), and the
`write_json_to_s3` processor wraps *any* returned dict in a `SUCCESS`
envelope.  Evaluated at a failing persist (`put_object` fails with
`AccessDenied`), the step reports `SUCCESS`, carries the failure dict as its
output, and has no failure message. -/
theorem write_json_persist_failure_reported_success :
    write_json_to_s3_step (.ok ()) (some (toL "AccessDenied")) (toL "pfx/doc.json") =
      { output := some
          { status := toL "Failed"
            error := some (toL "AccessDenied")
            s3_key_pfx := toL "pfx/doc.json" }
        step_status := StatusEnum.SUCCESS
        step_failure_message := none } := by
  rfl

/-- The nested `if` structure of the version resolution collapses to
"one more than the maximum extracted version, default 1". -/
theorem resolve_version_number_eq (keys : List Str) (stem : Str) :
    resolve_version_number keys stem =
      listMaxNat (keys.filterMap (extractVersion stem)) + 1 := by
  cases keys with
  | nil => simp [resolve_version_number, listMaxNat]
  | cons a t =>
    have h : ((a :: t : List Str)).isEmpty = false := rfl
    simp only [resolve_version_number, h, Bool.false_eq_true, if_false]
    by_cases hn : ((a :: t : List Str).filterMap (extractVersion stem)).isEmpty
    · rw [List.isEmpty_iff] at hn
      simp [hn, listMaxNat]
    · simp [hn]

/-- Claim C5. The resolved version folder is always
`max(extracted existing versions) + 1` with `max ∅ = 0` — hence `001` when
no versioned keys exist — both for the raw resolution function and through
the store listing; in particular existing versions `{001, 002}` resolve the
next write to folder `003`. -/
theorem version_folder_is_max_plus_one :
    (∀ existing_keys stem, resolve_version_number existing_keys stem =
      listMaxNat (existing_keys.filterMap (extractVersion stem)) + 1) ∧
    (∀ fr o, write_raw_version_folder fr o =
      fmt3 (listMaxNat
        ((list_objects_with_pfx o
            (toL "versioning/" ++ pyStrOpt fr.file_name_wo_ext ++ toL "/")).filterMap
          (extractVersion (pyStrOpt fr.file_name_wo_ext))) + 1)) ∧
    resolve_version_number
      [toL "versioning/f/001/a.txt", toL "versioning/f/002/a.txt"] (toL "f") = 3 ∧
    fmt3 3 = toL "003" ∧
    resolve_version_number [] (toL "f") = 1 ∧
    fmt3 1 = toL "001" := by
  refine ⟨resolve_version_number_eq, ?_, by decide, by decide, by decide, by decide⟩
  intro fr o
  simp only [write_raw_version_folder, resolve_version_number_eq]

/-- Claim C7. The gateway's list operation returns `[]` (it never raises) on
any underlying error, and its JSON read returns `none` (never raises) on
every failure path: a client error caught inside `get_object`, any other
exception from the client, and undecodable content. -/
theorem gateway_list_empty_read_nil_on_error :
    (∀ (o : S3Oracle) (pfx e : Str), o.listPages pfx = .error e →
      list_objects_with_pfx o pfx = []) ∧
    (∀ (parse : Str → Option Payload) (o : S3Oracle) (k e : Str),
      o.getRaw k = .clientErr e → read_json_from_s3 parse o k = none) ∧
    (∀ (parse : Str → Option Payload) (o : S3Oracle) (k e : Str),
      o.getRaw k = .otherErr e → read_json_from_s3 parse o k = none) ∧
    (∀ (parse : Str → Option Payload) (o : S3Oracle) (k c : Str),
      o.getRaw k = .ok c → parse c = none → read_json_from_s3 parse o k = none) := by
  refine ⟨?_, ?_, ?_, ?_⟩
  · intro o pfx e h
    simp [list_objects_with_pfx, h]
  · intro parse o k e h
    simp [read_json_from_s3, get_object, h]
  · intro parse o k e h
    simp [read_json_from_s3, get_object, h]
  · intro parse o k c h hp
    simp [read_json_from_s3, get_object, h, hp]

/-- A concrete all-failing oracle for the C7 witness. -/
def failingOracle : S3Oracle :=
  { getRaw := fun _ => .clientErr (toL "boom")
    listPages := fun _ => .error (toL "boom") }

/-- Witness for C7 at a concrete failing oracle. -/
theorem gateway_list_empty_read_nil_on_error_witness :
    list_objects_with_pfx failingOracle (toL "p/") = [] ∧
    read_json_from_s3 (fun _ => none) failingOracle (toL "p/doc.json") = none := by
  exact ⟨gateway_list_empty_read_nil_on_error.1 failingOracle (toL "p/") (toL "boom") rfl,
    (gateway_list_empty_read_nil_on_error.2.1 (fun _ => none) failingOracle
      (toL "p/doc.json") (toL "boom") rfl)⟩

/-- Claim C9. The object-key builder is declared to return a string but falls
through every addressing branch and returns Python `None` for some argument
combinations: a non-empty `target_folder` with the master-data flag unset,
and a master-data call whose `target_folder` is outside
`{master_data, process_data, versioning}`. -/
theorem key_builder_falls_through_to_none :
    get_s3_key_pfx (toL "20250101") (toL "req1") frOrder none none none
      (some false) (some (toL "weird")) (some true) none = .ok none ∧
    get_s3_key_pfx (toL "20250101") (toL "req1") frOrder none none none
      (some true) (some (toL "oddfolder")) (some false) none = .ok none := by
  exact ⟨rfl, rfl⟩

/-- Claim C10. `select_latest_rerun` is not total: a key list containing
`base_rerun_final.json` makes the integer parse raise `ValueError` instead
of returning a key or nil. -/
theorem select_latest_rerun_raises_on_bad_numeral :
    select_latest_rerun [toL "base_rerun_final.json"] (toL "base") =
      .error (toL "ValueError: invalid literal for int() with base 10") := by
  rfl

/-- Claim C2, counterexample. For `rerunAttempt = 1` in addressing mode 1 the
code produces the object name `doc_rerun_1.json`, not the `doc.json` the
claim requires for attempt 1. -/
theorem rerun_attempt_one_gets_suffix :
    get_s3_key_pfx (toL "20250101") (toL "req1") frOrder
      (some { stepName := toL "PARSE", stepOrder := 2 })
      (some { target_store_data := toL "target" })
      (some 1) (some false) none (some true) none =
      .ok (some (toL "target/f1/c1/20250101/req1/02_PARSE/doc_rerun_1.json")) ∧
    toL "target/f1/c1/20250101/req1/02_PARSE/doc_rerun_1.json" ≠
      toL "target/f1/c1/20250101/req1/02_PARSE/doc.json" := by
  exact ⟨rfl, by decide⟩

/-- Claim C2, amended. In addressing mode 1 the trailing object name carries
the `_rerun_{N}` suffix exactly when `rerunAttempt` is set and non-zero —
attempt 1 included; only `rerunAttempt` absent or `0` produce the plain
`{fileStem}.json`. -/
theorem mode1_object_name_iff_rerun_truthy (date_str request_id : Str)
    (fr : FileRecord) (st : WorkflowStep) (cfg : StepDefinition)
    (ra : Option Int) (im : Option Bool) :
    get_s3_key_pfx date_str request_id fr (some st) (some cfg) ra im none
      (some true) none =
      .ok (some (cfg.target_store_data ++ toL "/" ++
        (if truthyB im then pyStrOpt fr.file_name_wo_ext
         else pyStrOpt fr.folder_name ++ toL "/" ++
           pyStrOpt fr.customer_foldername) ++ toL "/" ++
        date_str ++ toL "/" ++ request_id ++ toL "/" ++ fmt2 st.stepOrder ++
        toL "_" ++ st.stepName ++ toL "/" ++
        (if truthyI ra then
          pyStrOpt fr.file_name_wo_ext ++ toL "_rerun_" ++
            intToStr (ra.getD 0) ++ toL ".json"
         else pyStrOpt fr.file_name_wo_ext ++ toL ".json"))) := by
  rfl

/-- Claim C3, counterexample. With keys `{dir/base.json}` no key is exactly
equal to `base.json`, so the claim demands nil; the code's substring-based
fallback returns `dir/base.json`. -/
theorem select_fallback_substring_not_equality :
    select_latest_rerun [toL "dir/base.json"] (toL "base") =
      .ok (some (toL "dir/base.json")) ∧
    toL "dir/base.json" ≠ toL "base.json" := by
  exact ⟨rfl, by decide⟩

/-- Python `max(l, key=...)` on a non-empty pair list: yields a member whose
first component bounds every element's. -/
theorem pyMaxBy_spec (l : List (Int × Str)) (h : l ≠ []) :
    ∃ m, pyMaxBy l = some m ∧ m ∈ l ∧ ∀ x ∈ l, x.1 ≤ m.1 := by
  induction l with
  | nil => exact absurd rfl h
  | cons x t ih =>
    by_cases ht : t = []
    · subst ht
      refine ⟨x, rfl, List.mem_singleton_self x, ?_⟩
      intro y hy
      rw [List.mem_singleton] at hy
      subst hy
      exact le_refl _
    · obtain ⟨m, hm, hmem, hb⟩ := ih ht
      by_cases hgt : m.1 > x.1
      · refine ⟨m, ?_, List.mem_cons_of_mem _ hmem, ?_⟩
        · simp [pyMaxBy, hm, hgt]
        · intro y hy
          rcases List.mem_cons.mp hy with h1 | h2
          · subst h1; exact le_of_lt hgt
          · exact hb y h2
      · refine ⟨x, ?_, List.mem_cons_self x t, ?_⟩
        · simp [pyMaxBy, hm, hgt]
        · intro y hy
          rcases List.mem_cons.mp hy with h1 | h2
          · subst h1; exact le_refl _
          · exact le_trans (hb y h2) (le_of_not_lt hgt)

/-- When every candidate parses, the rerun-pair comprehension succeeds and
its pairs are exactly the candidates with their parsed numbers. -/
theorem parseRerunPairs_total (l : List Str)
    (h : ∀ k ∈ l, (rerunKeyNum k).isSome) :
    ∃ r : List (Int × Str),
      parseRerunPairs l = some r ∧
      (∀ p ∈ r, p.2 ∈ l ∧ rerunKeyNum p.2 = some p.1) ∧
      (∀ k ∈ l, ∃ n, (n, k) ∈ r) ∧ (r = [] ↔ l = []) := by
  induction l with
  | nil => exact ⟨[], rfl, by simp, by simp, by simp⟩
  | cons k t ih =>
    obtain ⟨n, hn⟩ := Option.isSome_iff_exists.mp (h k (List.mem_cons_self k t))
    obtain ⟨r, hr, hprops, hall, hemp⟩ :=
      ih (fun k' hk' => h k' (List.mem_cons_of_mem _ hk'))
    refine ⟨(n, k) :: r, ?_, ?_, ?_, by simp⟩
    · simp [parseRerunPairs, hn, hr]
    · intro p hp
      rcases List.mem_cons.mp hp with h1 | h2
      · subst h1; exact ⟨List.mem_cons_self k t, hn⟩
      · obtain ⟨hm, hq⟩ := hprops p h2
        exact ⟨List.mem_cons_of_mem _ hm, hq⟩
    · intro k' hk'
      rcases List.mem_cons.mp hk' with h1 | h2
      · subst h1; exact ⟨n, List.mem_cons_self _ _⟩
      · obtain ⟨n', hn'⟩ := hall k' h2
        exact ⟨n', List.mem_cons_of_mem _ hn'⟩

/-- Claim C3, amended. Provided every key containing `{base}_rerun_` parses to
an integer rerun number (the others raise, see the partiality claim): among
keys *containing* `{base}_rerun_` the result is one with maximal parsed N;
when none contain it, the result is the first key containing `{base}.json`
as a substring and not containing `_rerun_` (substring containment, not
exact equality), and nil — also for the empty list — when there is no such
key. -/
theorem select_latest_rerun_amended (keys : List Str) (base : Str)
    (hp : ∀ k ∈ keys, strContains k (base ++ toL "_rerun_") = true →
      (rerunKeyNum k).isSome) :
    (keys.filter (fun k => strContains k (base ++ toL "_rerun_")) = [] →
      select_latest_rerun keys base =
        .ok (keys.find? (fun k => strContains k (base ++ toL ".json") &&
          !strContains k (toL "_rerun_")))) ∧
    (keys.filter (fun k => strContains k (base ++ toL "_rerun_")) ≠ [] →
      ∃ k n, select_latest_rerun keys base = .ok (some k) ∧ k ∈ keys ∧
        strContains k (base ++ toL "_rerun_") = true ∧
        rerunKeyNum k = some n ∧
        ∀ k' ∈ keys, strContains k' (base ++ toL "_rerun_") = true →
          ∀ n', rerunKeyNum k' = some n' → n' ≤ n) := by
  constructor
  · intro hf
    unfold select_latest_rerun
    rw [hf]
    rfl
  · intro hf
    have hp' : ∀ k ∈ keys.filter
        (fun k => strContains k (base ++ toL "_rerun_")),
        (rerunKeyNum k).isSome := by
      intro k hk
      have hmf := List.mem_filter.mp hk
      exact hp k hmf.1 hmf.2
    obtain ⟨r, hr, hprops, hall, hemp⟩ := parseRerunPairs_total _ hp'
    have hrne : r ≠ [] := fun hre => hf (hemp.mp hre)
    obtain ⟨m, hm, hmem, hb⟩ := pyMaxBy_spec r hrne
    refine ⟨m.2, m.1, ?_, ?_, ?_, ?_, ?_⟩
    · simp only [select_latest_rerun, hr, hm]
    · exact (List.mem_filter.mp (hprops m hmem).1).1
    · exact (List.mem_filter.mp (hprops m hmem).1).2
    · exact (hprops m hmem).2
    · intro k' hk' hc n' hn'
      have hkf : k' ∈ keys.filter
          (fun k => strContains k (base ++ toL "_rerun_")) :=
        List.mem_filter.mpr ⟨hk', hc⟩
      obtain ⟨n'', hn''⟩ := hall k' hkf
      have hq : rerunKeyNum k' = some n'' := (hprops _ hn'').2
      have hnn : n' = n'' := by
        rw [hn'] at hq
        exact Option.some.inj hq
      rw [hnn]
      exact hb (n'', k') hn''

/-- Witness for the amended C3 at a single-rerun key list. -/
theorem select_latest_rerun_amended_witness :
    select_latest_rerun [toL "b_rerun_2.json"] (toL "b") =
      .ok (some (toL "b_rerun_2.json")) := by
  obtain ⟨k, n, heq, hkmem, -, -, -⟩ :=
    (select_latest_rerun_amended [toL "b_rerun_2.json"] (toL "b")
      (by decide)).2 (by decide)
  have hk : k = toL "b_rerun_2.json" := by simpa using hkmem
  rw [hk] at heq
  exact heq

/-- Claim C4. The prior-step-result lookup: (i) the attempt it addresses is
`rerunAttempt - 1` when `rerunAttempt > 1` and no attempt otherwise, fed
into mode-2 addressing; (ii) under the resulting prefix it lists keys,
selects via the latest-rerun rule, and JSON-decodes the selected key;
nothing selected or nothing decodable yields `nil`; a decoded payload `d` —
whatever its stored `step_status` field is — is parsed and returned. -/
theorem get_step_result_contract {α : Type} (parse : Str → Option Payload)
    (parse_data : DocumentType → Payload → α) (o : S3Oracle) (date_str : Str)
    (tm : TrackingModel) (fr : FileRecord) (st : WorkflowStep)
    (cfg : StepDefinition) :
    (∀ n : Int, tm.rerun_attempt = some n → 1 < n →
      stepResultListingPfx date_str tm fr st cfg =
        get_s3_key_pfx date_str tm.request_id fr (some st) (some cfg)
          (some (n - 1)) tm.sap_masterdata none (some false) none) ∧
    (∀ n : Int, tm.rerun_attempt = some n → ¬ 1 < n →
      stepResultListingPfx date_str tm fr st cfg =
        get_s3_key_pfx date_str tm.request_id fr (some st) (some cfg)
          none tm.sap_masterdata none (some false) none) ∧
    (tm.rerun_attempt = none →
      stepResultListingPfx date_str tm fr st cfg =
        get_s3_key_pfx date_str tm.request_id fr (some st) (some cfg)
          none tm.sap_masterdata none (some false) none) ∧
    (∀ pfx : Str, stepResultListingPfx date_str tm fr st cfg = .ok (some pfx) →
      (select_latest_rerun (list_objects_with_pfx o pfx)
          (pyStrOpt fr.file_name_wo_ext) = .ok none →
        get_step_result_from_s3 parse parse_data o date_str tm fr st cfg =
          .ok none) ∧
      (∀ k, select_latest_rerun (list_objects_with_pfx o pfx)
          (pyStrOpt fr.file_name_wo_ext) = .ok (some k) →
        read_json_from_s3 parse o k = none →
        get_step_result_from_s3 parse parse_data o date_str tm fr st cfg =
          .ok none) ∧
      (∀ k d, select_latest_rerun (list_objects_with_pfx o pfx)
          (pyStrOpt fr.file_name_wo_ext) = .ok (some k) →
        read_json_from_s3 parse o k = some d →
        get_step_result_from_s3 parse parse_data o date_str tm fr st cfg =
          .ok (some (parse_data fr.document_type (setJsonOutput d k))))) := by
  refine ⟨?_, ?_, ?_, ?_⟩
  · intro n hn hlt
    simp [stepResultListingPfx, priorRerunAttempt, hn, hlt]
  · intro n hn hlt
    simp [stepResultListingPfx, priorRerunAttempt, hn, hlt]
  · intro hn
    simp [stepResultListingPfx, priorRerunAttempt, hn]
  · intro pfx hpfx
    refine ⟨?_, ?_, ?_⟩
    · intro hsel
      simp only [get_step_result_from_s3, hpfx, hsel]
    · intro k hsel hread
      simp only [get_step_result_from_s3, hpfx, hsel, hread]
    · intro k d hsel hread
      simp only [get_step_result_from_s3, hpfx, hsel, hread]

/-- A well-behaved oracle for the C4 witness: one stored artifact. -/
def storedOracle : S3Oracle :=
  { getRaw := fun _ => .ok (toL "content")
    listPages := fun _ => .ok [toL "doc.json"] }

/-- A tracking model on rerun attempt 2 for the C4 witness. -/
def tmRerun2 : TrackingModel :=
  { request_id := toL "req1"
    project_name := toL "proj"
    rerun_attempt := some 2
    sap_masterdata := some false }

/-- A decoded payload carrying a non-skip `step_status` for the C4 witness. -/
def payloadStatus0 : Payload :=
  { step_status := some (toL "0")
    json_output := none
    body := toL "body" }

/-- Witness for C4: with one stored `doc.json` artifact decoding to a
payload with `step_status="0"`, the lookup on attempt 2 returns the parsed
payload (its non-skip status notwithstanding). -/
theorem get_step_result_contract_witness :
    get_step_result_from_s3 (fun _ => some payloadStatus0)
      (fun _ d => d) storedOracle (toL "20250101") tmRerun2 frOrder
      { stepName := toL "PARSE", stepOrder := 2 }
      { target_store_data := toL "target" } =
      .ok (some
        { step_status := some (toL "0")
          json_output := some (toL "doc.json")
          body := toL "body" }) := by
  exact ((get_step_result_contract (fun _ => some payloadStatus0)
      (fun _ d => d) storedOracle (toL "20250101") tmRerun2 frOrder
      { stepName := toL "PARSE", stepOrder := 2 }
      { target_store_data := toL "target" }).2.2.2
    (toL "target/f1/c1/20250101/req1/02_PARSE/") rfl).2.2
    (toL "doc.json") payloadStatus0 rfl rfl

/-- Spec-side (§4.1): the key a target-bucket lookup uses —
`"sap_masterdata"` substituted for the (uppercased) project name exactly
when the document type is `MASTER_DATA` and the master-data flag is set. -/
def targetLookupKey (dt : DocumentType) (sap : Option Bool) (pn : Str) : Str :=
  if dt = DocumentType.MASTER_DATA ∧ truthyB sap = true then toL "sap_masterdata"
  else pyUpper pn

/-- Spec-side (§4.1): target-bucket resolution keyed off the document type
and a lookup key, failing on every missing mapping level. -/
def resolveTargetBucketSpec (env : BucketEnv) (dt : DocumentType) (key : Str) :
    Except Str Str :=
  if env.targetMap.isEmpty then
    .error (pyKeyErrorStr (msgUnknownBucketType (toL "target_bucket")))
  else
    match dictGetNested env.targetMap dt.value with
    | none => .error (pyKeyErrorStr (msgUnsupportedDoc dt.value (toL "target_bucket")))
    | some doc_data =>
      if doc_data.isEmpty then
        .error (pyKeyErrorStr (msgUnsupportedDoc dt.value (toL "target_bucket")))
      else
        match dictGet doc_data key with
        | none => .error (pyKeyErrorStr (msgNoBucket key dt.value))
        | some b =>
          if b.isEmpty then .error (pyKeyErrorStr (msgNoBucket key dt.value))
          else env.cfgGet b

/-- Claim C6. Raw-bucket lookups key off the project name only (the document
type and master-data flag are irrelevant); target-bucket lookups refine
to the spec-side resolution keyed off the document type and the
`targetLookupKey` substitution; and every failing resolution is a single
wrapped error whose text appends the original cause's message. -/
theorem bucket_resolution_contract :
    (∀ (env : BucketEnv) (dt₁ dt₂ : DocumentType) (pn : Str)
        (s₁ s₂ : Option Bool),
      get_bucket_name env dt₁ (toL "raw_bucket") pn s₁ =
        get_bucket_name env dt₂ (toL "raw_bucket") pn s₂) ∧
    (∀ (env : BucketEnv) (dt : DocumentType) (pn : Str) (sap : Option Bool),
      get_bucket_name_inner env dt (toL "target_bucket") pn sap =
        resolveTargetBucketSpec env dt (targetLookupKey dt sap pn)) ∧
    (∀ (env : BucketEnv) (dt : DocumentType) (bt pn : Str)
        (sap : Option Bool) (e : Str),
      get_bucket_name env dt bt pn sap = .error e →
      ∃ m, get_bucket_name_inner env dt bt pn sap = .error m ∧
        e = toL "Failed to resolve bucket name: " ++ m) := by
  refine ⟨?_, ?_, ?_⟩
  · intro env dt₁ dt₂ pn s₁ s₂
    rfl
  · intro env dt pn sap
    rfl
  · intro env dt bt pn sap e h
    unfold get_bucket_name at h
    cases hi : get_bucket_name_inner env dt bt pn sap with
    | ok b =>
      rw [hi] at h
      exact absurd h (by simp)
    | error m =>
      rw [hi] at h
      simp only [Except.error.injEq] at h
      exact ⟨m, rfl, h.symm⟩

/-- An environment with no bucket mappings at all, for the C6 witness. -/
def envEmpty : BucketEnv :=
  { rawMap := []
    targetMap := []
    cfgGet := fun _ => .error (toL "cfg missing") }

/-- Witness for C6: an unmapped environment fails with the wrapped error
carrying the inner `KeyError` text. -/
theorem bucket_resolution_contract_witness :
    ∃ m, get_bucket_name_inner envEmpty DocumentType.ORDER (toL "raw_bucket")
        (toL "p") none = .error m ∧
      toL "Failed to resolve bucket name: " ++
        pyKeyErrorStr (msgUnknownBucketType (toL "raw_bucket")) =
        toL "Failed to resolve bucket name: " ++ m := by
  exact bucket_resolution_contract.2.2 envEmpty DocumentType.ORDER
    (toL "raw_bucket") (toL "p") none
    (toL "Failed to resolve bucket name: " ++
      pyKeyErrorStr (msgUnknownBucketType (toL "raw_bucket"))) rfl

/-- Claim C8, counterexample. Path `MASTER_DATA/file.txt` has no segment
literally equal to the master-data marker `master_data`, yet the code
classifies it as `MASTER_DATA` (the comparison lowercases the segment
first), so "equals the marker literally" is false on the code. -/
theorem doc_type_not_literal_match :
    documentTypeOfPath (toL "MASTER_DATA/file.txt") =
      .ok DocumentType.MASTER_DATA ∧
    ∀ part ∈ pathPartsPosix (toL "MASTER_DATA/file.txt"),
      part ≠ DocumentType.MASTER_DATA.value := by
  exact ⟨rfl, by decide⟩

/-- Claim C8, amended. For every path with at least one component, metadata
extraction sets the document type to `MASTER_DATA` exactly when some path
segment *lowercased* equals the master-data marker (case-insensitive
match), and to `ORDER` otherwise; and `_prepare_object` determines the
document type first and feeds exactly it into both bucket resolutions. -/
theorem doc_type_casefold_before_buckets :
    (∀ p : Str, pathPartsPosix p ≠ [] →
      ((documentTypeOfPath p = .ok DocumentType.MASTER_DATA ↔
        ∃ part ∈ pathPartsPosix p,
          pyLower part = DocumentType.MASTER_DATA.value) ∧
       (documentTypeOfPath p = .ok DocumentType.ORDER ↔
        ¬ ∃ part ∈ pathPartsPosix p,
          pyLower part = DocumentType.MASTER_DATA.value))) ∧
    (∀ (env : BucketEnv) (tm : TrackingModel) (p : Str) (m : ProcMeta),
      prepareMeta env tm p = .ok m →
      documentTypeOfPath p = .ok m.document_type ∧
      get_bucket_name env m.document_type (toL "raw_bucket")
        tm.project_name tm.sap_masterdata = .ok m.raw_bucket_name ∧
      get_bucket_name env m.document_type (toL "target_bucket")
        tm.project_name tm.sap_masterdata = .ok m.target_bucket_name) := by
  constructor
  · intro p hne
    have hpe : (pathPartsPosix p).isEmpty = false := by
      simp [List.isEmpty_iff, hne]
    cases hany : (pathPartsPosix p).any
        (fun part => pyLower part == DocumentType.MASTER_DATA.value) with
    | true =>
      have hex : ∃ part ∈ pathPartsPosix p,
          pyLower part = DocumentType.MASTER_DATA.value := by
        simpa using List.any_eq_true.mp hany
      constructor
      · simp [documentTypeOfPath, hpe, hany, hex]
      · simp [documentTypeOfPath, hpe, hany, hex]
    | false =>
      have hnex : ¬ ∃ part ∈ pathPartsPosix p,
          pyLower part = DocumentType.MASTER_DATA.value := by
        intro hx
        obtain ⟨x, hx1, hx2⟩ := hx
        have : (pathPartsPosix p).any
            (fun part => pyLower part == DocumentType.MASTER_DATA.value) = true :=
          List.any_eq_true.mpr ⟨x, hx1, by simp [hx2]⟩
        rw [hany] at this
        cases this
      constructor
      · simp [documentTypeOfPath, hpe, hany, hnex]
      · simp [documentTypeOfPath, hpe, hany, hnex]
  · intro env tm p m h
    unfold prepareMeta at h
    cases hd : documentTypeOfPath p with
    | error e =>
      simp only [hd] at h
      exact absurd h (by simp)
    | ok dt =>
      simp only [hd] at h
      cases hr : get_bucket_name env dt (toL "raw_bucket") tm.project_name
          tm.sap_masterdata with
      | error e =>
        simp only [hr] at h
        exact absurd h (by simp)
      | ok raw =>
        simp only [hr] at h
        cases ht : get_bucket_name env dt (toL "target_bucket") tm.project_name
            tm.sap_masterdata with
        | error e =>
          simp only [ht] at h
          exact absurd h (by simp)
        | ok tgt =>
          simp only [ht, Except.ok.injEq] at h
          subst h
          exact ⟨rfl, hr, ht⟩

/-- A fully mapped environment for the C8 witness. -/
def envMapped : BucketEnv :=
  { rawMap := [(toL "PROJ", toL "rawb")]
    targetMap := [(toL "order", [(toL "PROJ", toL "tgtb")])]
    cfgGet := fun b => .ok (toL "cfg-" ++ b) }

/-- A tracking model without rerun or master-data flags. -/
def tmPlain : TrackingModel :=
  { request_id := toL "req"
    project_name := toL "proj"
    rerun_attempt := none
    sap_masterdata := none }

/-- The metadata `prepareMeta` resolves for the C8 witness inputs. -/
def metaOrder : ProcMeta :=
  { document_type := DocumentType.ORDER
    raw_bucket_name := toL "cfg-rawb"
    target_bucket_name := toL "cfg-tgtb" }

/-- Witness for C8 at concrete paths and a concrete environment. -/
theorem doc_type_casefold_before_buckets_witness :
    ((documentTypeOfPath (toL "a/master_data/f.txt") =
        .ok DocumentType.MASTER_DATA ↔
      ∃ part ∈ pathPartsPosix (toL "a/master_data/f.txt"),
        pyLower part = DocumentType.MASTER_DATA.value) ∧
     (documentTypeOfPath (toL "a/master_data/f.txt") =
        .ok DocumentType.ORDER ↔
      ¬ ∃ part ∈ pathPartsPosix (toL "a/master_data/f.txt"),
        pyLower part = DocumentType.MASTER_DATA.value)) ∧
    (documentTypeOfPath (toL "a/b/f.txt") = .ok metaOrder.document_type ∧
     get_bucket_name envMapped metaOrder.document_type (toL "raw_bucket")
       tmPlain.project_name tmPlain.sap_masterdata = .ok metaOrder.raw_bucket_name ∧
     get_bucket_name envMapped metaOrder.document_type (toL "target_bucket")
       tmPlain.project_name tmPlain.sap_masterdata = .ok metaOrder.target_bucket_name) := by
  exact ⟨doc_type_casefold_before_buckets.1 (toL "a/master_data/f.txt") (by decide),
    doc_type_casefold_before_buckets.2 envMapped tmPlain (toL "a/b/f.txt")
      metaOrder rfl⟩

end Dksh
